import Mathlib

/-!
Shallow embedding of the error-recovery and fix-approval pipeline:
the diagnosis fallback and fix-policy logic of `analyzeError` / `handleError`
(src/modules/projects/ui/components/usage.tsx) and the approvals router
(`executeProposedFix`, `approveFix`, `rejectFix` in
src/modules/approvals/server/procedures.ts).

Machine floats of the source (confidence scores) are modelled as rationals;
the Prisma store is modelled as an explicit record of rows; every Prisma
create/update and every sandbox call is recorded as an explicit effect or
event so ordering and absence of effects can be stated.
-/

/-- JS truthiness of an optional string: `undefined` and `""` are falsy. -/
def strTruthy : Option String → Bool
  | none => false
  | some s => !s.isEmpty

/-- JS `a || b` where `a` is an optional string: `undefined` and `""` fall
back to the default `b`. -/
def jsOr (a : Option String) (b : String) : String :=
  match a with
  | some s => if s.isEmpty then b else s
  | none => b

/-- prisma/migrations: CREATE TYPE "ErrorSeverity". -/
inductive ErrorSeverity where
  | LOW | MEDIUM | HIGH | CRITICAL
  deriving DecidableEq

/-- prisma/migrations: CREATE TYPE "ErrorCategory". -/
inductive ErrorCategory where
  | COMPILATION | DEPENDENCY | SYNTAX | LOGIC | INFRASTRUCTURE | USER_INPUT
  deriving DecidableEq

/-- prisma/migrations: CREATE TYPE "ApprovalStatus". -/
inductive ApprovalStatus where
  | PENDING | APPROVED | REJECTED | AUTO_FIXED
  deriving DecidableEq

inductive MessageRole where
  | USER | ASSISTANT
  deriving DecidableEq

/-- MessageType after the migration adds APPROVAL_REQUEST. -/
inductive MessageType where
  | RESULT | ERROR | APPROVAL_REQUEST
  deriving DecidableEq

/-- One (path, content) pair of a fileChange / multiStep payload. -/
structure FileWrite where
  path : String
  content : String
  deriving DecidableEq

/-- The tagged union stored in ProposedFix.fixData (spec section 3; the three
branches of executeProposedFix, procedures.ts lines 13-50). -/
inductive FixData where
  | command (commands : List String)
  | fileChange (files : List FileWrite)
  | multiStep (commands : Option (List String)) (files : Option (List FileWrite))
  deriving DecidableEq

/-- The sandbox collaborator: each `sandbox.commands.run` / `sandbox.files.write`
either returns normally (`none`) or throws, carrying an error string. -/
structure Sandbox where
  runCommand : String → Option String
  writeFile : FileWrite → Option String

/-- One observable sandbox interaction, in the order it was issued. -/
inductive SandboxEvent where
  | ranCommand (c : String)
  | wroteFile (f : FileWrite)
  deriving DecidableEq

def SandboxEvent.isRun : SandboxEvent → Bool
  | SandboxEvent.ranCommand _ => true
  | SandboxEvent.wroteFile _ => false

def SandboxEvent.isWrite : SandboxEvent → Bool
  | SandboxEvent.ranCommand _ => false
  | SandboxEvent.wroteFile _ => true

/-- The structured result executeProposedFix returns (never throws). -/
structure ExecResult where
  success : Bool
  error : Option String
  deriving DecidableEq

/-- The command loop of executeProposedFix: run each command in listed order;
the first throw aborts the loop and propagates the error. The trace records
every `sandbox.commands.run` call issued, the failing one included. -/
def runCmds (sb : Sandbox) : List String → List SandboxEvent × Option String
  | [] => ([], none)
  | c :: cs =>
    match sb.runCommand c with
    | some e => ([SandboxEvent.ranCommand c], some e)
    | none =>
      let r := runCmds sb cs
      (SandboxEvent.ranCommand c :: r.1, r.2)

/-- The file loop of executeProposedFix: write each pair in listed order;
the first throw aborts the loop. -/
def writeFiles (sb : Sandbox) : List FileWrite → List SandboxEvent × Option String
  | [] => ([], none)
  | f :: fs =>
    match sb.writeFile f with
    | some e => ([SandboxEvent.wroteFile f], some e)
    | none =>
      let r := writeFiles sb fs
      (SandboxEvent.wroteFile f :: r.1, r.2)

/-- executeProposedFix (procedures.ts lines 9-57): dispatch on the payload tag,
require a truthy sandbox id, run commands then files; any throw is caught and
converted into `{ success := false, error := some e }`. Also returns the trace
of sandbox interactions actually issued. -/
def executeProposedFix (sb : Sandbox) (fixData : FixData) (sandboxId : Option String) :
    ExecResult × List SandboxEvent :=
  match fixData with
  | FixData.command commands =>
    if !strTruthy sandboxId then
      ({ success := false, error := some "Error: Sandbox ID required for command execution" }, [])
    else
      match runCmds sb commands with
      | (evs, none) => ({ success := true, error := none }, evs)
      | (evs, some e) => ({ success := false, error := some e }, evs)
  | FixData.fileChange files =>
    if !strTruthy sandboxId then
      ({ success := false, error := some "Error: Sandbox ID required for file changes" }, [])
    else
      match writeFiles sb files with
      | (evs, none) => ({ success := true, error := none }, evs)
      | (evs, some e) => ({ success := false, error := some e }, evs)
  | FixData.multiStep commands files =>
    if !strTruthy sandboxId then
      ({ success := false, error := some "Error: Sandbox ID required for multi-step fixes" }, [])
    else
      match (match commands with | some cs => runCmds sb cs | none => ([], none)) with
      | (cevs, some e) => ({ success := false, error := some e }, cevs)
      | (cevs, none) =>
        match (match files with | some fs => writeFiles sb fs | none => ([], none)) with
        | (fevs, some e) => ({ success := false, error := some e }, cevs ++ fevs)
        | (fevs, none) => ({ success := true, error := none }, cevs ++ fevs)

/-- The parsed output shape of the error-analysis agent (usage.tsx). -/
structure Diagnosis where
  category : ErrorCategory
  severity : ErrorSeverity
  diagnostic : String
  canAutoFix : Bool
  confidence : ℚ
  suggestedActions : List String
  deriving DecidableEq

/-- The fixed fallback analyzeError returns from its catch block
(usage.tsx lines 104-114). -/
def fallbackDiagnosis : Diagnosis :=
  { category := ErrorCategory.INFRASTRUCTURE
    severity := ErrorSeverity.HIGH
    diagnostic := "Failed to analyze error"
    canAutoFix := false
    confidence := 0
    suggestedActions := ["Manual review required"] }

/-- analyzeError (usage.tsx lines 91-115): `backendOutput = some d` models the
reasoning call returning output that parses as `d`; `none` models the backend
throwing or its output failing to parse (the catch branch). -/
def analyzeError (backendOutput : Option Diagnosis) : Diagnosis :=
  match backendOutput with
  | some d => d
  | none => fallbackDiagnosis

/-- The parsed output shape of the fix-generation agent; generateFix
(usage.tsx lines 118-141) returns it, or null on any failure, which the
caller receives as `Option FixDraft`. -/
structure FixDraft where
  description : String
  fixData : FixData
  reasoning : String
  confidence : ℚ
  deriving DecidableEq

/-- The structured payload JSON.stringify-ed into the APPROVAL_REQUEST
message content (usage.tsx lines 208-214). -/
structure ApprovalRequestPayload where
  typeTag : String
  errorLogId : String
  description : String
  reasoning : String
  confidence : ℚ
  deriving DecidableEq

/-- A message's content: plain text, or the serialized approval payload. -/
inductive MessageContent where
  | text (s : String)
  | jsonPayload (p : ApprovalRequestPayload)
  deriving DecidableEq

/-- A row of prisma.message as the pipeline creates it. -/
structure MessageRecord where
  projectId : String
  content : MessageContent
  role : MessageRole
  type : MessageType
  deriving DecidableEq

/-- A row of prisma.errorLog as handleError creates it (usage.tsx 164-176). -/
structure ErrorLogRecord where
  id : String
  messageId : String
  category : ErrorCategory
  severity : ErrorSeverity
  diagnostic : String
  deriving DecidableEq

/-- A row of prisma.proposedFix as handleError creates it (usage.tsx 186-197). -/
structure ProposedFixRow where
  errorLogId : String
  description : String
  fixData : FixData
  reasoning : String
  confidence : ℚ
  status : ApprovalStatus
  deriving DecidableEq

/-- The store writes and collaborator invocations handleError issues, in
program order. `invokedFixExecutor` is the effect an executeProposedFix call
would contribute; handleError's auto-apply branch holds only a TODO comment
and a console.log, so the translation of that branch emits nothing. -/
inductive DbEffect where
  | createdMessage (m : MessageRecord)
  | createdErrorLog (l : ErrorLogRecord)
  | createdProposedFix (p : ProposedFixRow)
  | invokedGenerateFix
  | invokedFixExecutor
  deriving DecidableEq

/-- handleError (usage.tsx lines 144-236), its happy path: create the ERROR
message, run analyzeError, create the error log, and when
`canAutoFix && confidence > 0.7` call generateFix; a non-null draft is stored
as a ProposedFix whose status is AUTO_FIXED exactly when
`severity == "LOW" && draft.confidence > 0.8`, and on the non-auto branch an
APPROVAL_REQUEST message is created. `diagBackend` / `fixGenBackend` model
the two reasoning collaborators; ids of created rows are passed in. -/
def handleError (diagBackend : Option Diagnosis) (fixGenBackend : Option FixDraft)
    (errorString : String) (projectId errorMessageId errorLogId : String) :
    List DbEffect :=
  let errorMessage : MessageRecord :=
    { projectId := projectId
      content := MessageContent.text ("Error occurred: " ++ errorString)
      role := MessageRole.ASSISTANT
      type := MessageType.ERROR }
  let errorAnalysis := analyzeError diagBackend
  let errorLog : ErrorLogRecord :=
    { id := errorLogId
      messageId := errorMessageId
      category := errorAnalysis.category
      severity := errorAnalysis.severity
      diagnostic := errorAnalysis.diagnostic }
  [DbEffect.createdMessage errorMessage, DbEffect.createdErrorLog errorLog] ++
    (if errorAnalysis.canAutoFix ∧ errorAnalysis.confidence > 7/10 then
      DbEffect.invokedGenerateFix ::
        (match fixGenBackend with
        | some proposedFix =>
          DbEffect.createdProposedFix
            { errorLogId := errorLog.id
              description := proposedFix.description
              fixData := proposedFix.fixData
              reasoning := proposedFix.reasoning
              confidence := proposedFix.confidence
              status :=
                if errorAnalysis.severity = ErrorSeverity.LOW ∧ proposedFix.confidence > 8/10
                then ApprovalStatus.AUTO_FIXED else ApprovalStatus.PENDING } ::
            (if errorAnalysis.severity = ErrorSeverity.LOW ∧ proposedFix.confidence > 8/10 then
              []
            else
              [DbEffect.createdMessage
                { projectId := projectId
                  content := MessageContent.jsonPayload
                    { typeTag := "approval_request"
                      errorLogId := errorLog.id
                      description := proposedFix.description
                      reasoning := proposedFix.reasoning
                      confidence := proposedFix.confidence }
                  role := MessageRole.ASSISTANT
                  type := MessageType.APPROVAL_REQUEST }])
        | none => [])
    else [])

/-- tRPC error codes the approvals router can raise. -/
inductive TrpcErrorCode where
  | NOT_FOUND | FORBIDDEN | BAD_REQUEST | CONFLICT | UNAUTHORIZED
  deriving DecidableEq

structure TrpcError where
  code : TrpcErrorCode
  message : String
  deriving DecidableEq

/-- The fragment of a message; approveFix reads its sandboxUrl. -/
structure Fragment where
  sandboxUrl : String
  deriving DecidableEq

/-- A ProposedFix row joined with what the router's `include` loads: the
owning project (via errorLog.message.project.userId), the parent message's
projectId, and the parent message's fragment. -/
structure FixRecord where
  id : String
  description : String
  fixData : FixData
  reasoning : String
  confidence : ℚ
  status : ApprovalStatus
  reviewedBy : Option String
  reviewedAt : Option Nat
  feedback : Option String
  projectId : String
  ownerUserId : String
  fragment : Option Fragment
  deriving DecidableEq

/-- The durable store the approval procedures read and write. -/
structure Store where
  fixes : List FixRecord
  messages : List MessageRecord
  deriving DecidableEq

/-- prisma.proposedFix.findUnique({ where: { id } }). -/
def findFix (s : Store) (fixId : String) : Option FixRecord :=
  s.fixes.find? (fun f => f.id == fixId)

/-- prisma.proposedFix.update({ where: { id } }): replace the row with that
id; the update is conditioned on the id alone, not on the current status. -/
def replaceFix (fixes : List FixRecord) (fixId : String) (nf : FixRecord) :
    List FixRecord :=
  fixes.map (fun f => if f.id == fixId then nf else f)

/-- approveFix, the read-and-guards half (procedures.ts lines 131-161):
findUnique, NOT_FOUND, ownership FORBIDDEN, then the status check, which
raises BAD_REQUEST "Fix already processed" when status is not PENDING. -/
def approveRead (userId fixId : String) (s : Store) : Except TrpcError FixRecord :=
  match findFix s fixId with
  | none => Except.error { code := TrpcErrorCode.NOT_FOUND, message := "Proposed fix not found" }
  | some proposedFix =>
    if proposedFix.ownerUserId ≠ userId then
      Except.error { code := TrpcErrorCode.FORBIDDEN, message := "Not authorized" }
    else if proposedFix.status ≠ ApprovalStatus.PENDING then
      Except.error { code := TrpcErrorCode.BAD_REQUEST, message := "Fix already processed" }
    else
      Except.ok proposedFix

/-- What approveFix returns on success (procedures.ts lines 197-201). -/
structure ApproveResult where
  success : Bool
  proposedFix : FixRecord
  executionError : Option String
  deriving DecidableEq

/-- JS `s.split('.')[0]`: the prefix of the string before its first dot
(the whole string when it has no dot). -/
def firstSplitComponent (s : String) : String :=
  String.mk (s.data.takeWhile (fun c => c != '.'))

/-- approveFix, the execute-and-write half (procedures.ts lines 163-201),
acting on the snapshot `proposedFix` returned by the read half: when the
fragment carries a truthy sandboxUrl, run executeProposedFix with
`sandboxUrl.split('.')[0]`; otherwise executionResult stays
`{ success: true }`. Then unconditionally update the row by id (APPROVED on
success, PENDING on failed execution, reviewer, timestamp, feedback defaulted
via `||`), and append the outcome message. -/
def approveWrite (sb : Sandbox) (now : Nat) (userId fixId : String)
    (feedback : Option String) (proposedFix : FixRecord) (s : Store) :
    ApproveResult × Store × List SandboxEvent :=
  let exec : ExecResult × List SandboxEvent :=
    match proposedFix.fragment with
    | some fragment =>
      if !fragment.sandboxUrl.isEmpty then
        executeProposedFix sb proposedFix.fixData
          (some (firstSplitComponent fragment.sandboxUrl))
      else ({ success := true, error := none }, [])
    | none => ({ success := true, error := none }, [])
  let executionResult := exec.1
  let updatedFix : FixRecord :=
    { proposedFix with
      status := if executionResult.success then ApprovalStatus.APPROVED else ApprovalStatus.PENDING
      reviewedBy := some userId
      reviewedAt := some now
      feedback := some (jsOr feedback
        ("Fix " ++ (if executionResult.success then "applied successfully" else "failed to apply"))) }
  let outcomeMessage : MessageRecord :=
    { projectId := proposedFix.projectId
      content := MessageContent.text
        (if executionResult.success then
          "✅ Fix applied: " ++ proposedFix.description
        else
          "❌ Fix failed: " ++ proposedFix.description ++ ". Error: " ++
            (match executionResult.error with | some e => e | none => "undefined"))
      role := MessageRole.ASSISTANT
      type := MessageType.RESULT }
  ({ success := executionResult.success
     proposedFix := updatedFix
     executionError := executionResult.error },
   { fixes := replaceFix s.fixes fixId updatedFix
     messages := s.messages ++ [outcomeMessage] },
   exec.2)

/-- The whole observable outcome of one approveFix call. -/
structure ApproveOutcome where
  result : Except TrpcError ApproveResult
  store : Store
  sandboxTrace : List SandboxEvent

/-- approveFix (procedures.ts lines 126-202): the read-and-guards step
followed by the execute-and-write step; a raised TRPCError leaves the store
untouched. -/
def approveFix (sb : Sandbox) (now : Nat) (userId fixId : String)
    (feedback : Option String) (s : Store) : ApproveOutcome :=
  match approveRead userId fixId s with
  | Except.error e => { result := Except.error e, store := s, sandboxTrace := [] }
  | Except.ok proposedFix =>
    let w := approveWrite sb now userId fixId feedback proposedFix s
    { result := Except.ok w.1, store := w.2.1, sandboxTrace := w.2.2 }

/-- rejectFix, the read-and-guards half (procedures.ts lines 210-239):
the same findUnique / NOT_FOUND / FORBIDDEN / BAD_REQUEST sequence. -/
def rejectRead (userId fixId : String) (s : Store) : Except TrpcError FixRecord :=
  match findFix s fixId with
  | none => Except.error { code := TrpcErrorCode.NOT_FOUND, message := "Proposed fix not found" }
  | some proposedFix =>
    if proposedFix.ownerUserId ≠ userId then
      Except.error { code := TrpcErrorCode.FORBIDDEN, message := "Not authorized" }
    else if proposedFix.status ≠ ApprovalStatus.PENDING then
      Except.error { code := TrpcErrorCode.BAD_REQUEST, message := "Fix already processed" }
    else
      Except.ok proposedFix

structure RejectOutcome where
  result : Except TrpcError FixRecord
  store : Store

/-- rejectFix (procedures.ts lines 205-263): zod requires feedback of length
at least 1 (an empty feedback is a BAD_REQUEST input-validation failure before
the handler runs); then the guards, then the unconditional update to REJECTED
with reviewer, timestamp and feedback, and the rejection message. -/
def rejectFix (now : Nat) (userId fixId feedback : String) (s : Store) :
    RejectOutcome :=
  if feedback.isEmpty then
    { result := Except.error { code := TrpcErrorCode.BAD_REQUEST, message := "Invalid input" }
      store := s }
  else
    match rejectRead userId fixId s with
    | Except.error e => { result := Except.error e, store := s }
    | Except.ok proposedFix =>
      let updatedFix : FixRecord :=
        { proposedFix with
          status := ApprovalStatus.REJECTED
          reviewedBy := some userId
          reviewedAt := some now
          feedback := some feedback }
      let rejectionMessage : MessageRecord :=
        { projectId := proposedFix.projectId
          content := MessageContent.text
            ("❌ Fix rejected: " ++ proposedFix.description ++ ". Reason: " ++ feedback)
          role := MessageRole.ASSISTANT
          type := MessageType.RESULT }
      { result := Except.ok updatedFix
        store := { fixes := replaceFix s.fixes fixId updatedFix
                   messages := s.messages ++ [rejectionMessage] } }

/-- A sandbox for the C6 witness: command "b" throws "boom", all else succeeds. -/
def c6Sandbox : Sandbox :=
  { runCommand := fun c => if c == "b" then some "boom" else none
    writeFile := fun _ => none }

/-- Concrete diagnosis for the C2 witness: LOW severity, auto-fixable,
confidence 0.9. -/
def c2Diag : Diagnosis :=
  { category := ErrorCategory.SYNTAX
    severity := ErrorSeverity.LOW
    diagnostic := "Missing semicolon"
    canAutoFix := true
    confidence := 9/10
    suggestedActions := [] }

/-- Concrete draft for the C2 witness: confidence 0.85. -/
def c2Draft : FixDraft :=
  { description := "Add the missing semicolon"
    fixData := FixData.command ["fix"]
    reasoning := "parse error points at line 3"
    confidence := 85/100 }

/-- The ProposedFix row handleError creates for c2Diag / c2Draft. -/
def c2Row : ProposedFixRow :=
  { errorLogId := "l"
    description := "Add the missing semicolon"
    fixData := FixData.command ["fix"]
    reasoning := "parse error points at line 3"
    confidence := 85/100
    status := ApprovalStatus.AUTO_FIXED }

/-- Concrete diagnosis for the C9 witness: same as c2Diag. -/
def c9Diag : Diagnosis :=
  { category := ErrorCategory.SYNTAX
    severity := ErrorSeverity.LOW
    diagnostic := "Missing semicolon"
    canAutoFix := true
    confidence := 9/10
    suggestedActions := [] }

/-- Concrete draft for the C9 witness: confidence 0.5, so the row is PENDING. -/
def c9Draft : FixDraft :=
  { description := "Rewrite the import"
    fixData := FixData.command ["fix"]
    reasoning := "low certainty"
    confidence := 1/2 }

/-- The PENDING row handleError creates for c9Diag / c9Draft. -/
def c9Row : ProposedFixRow :=
  { errorLogId := "l"
    description := "Rewrite the import"
    fixData := FixData.command ["fix"]
    reasoning := "low certainty"
    confidence := 1/2
    status := ApprovalStatus.PENDING }

/-- The spec's auto-apply scenario: severity LOW, canAutoFix, diagnosis
confidence 0.9, draft confidence 0.85 — the policy picks AUTO_FIXED. -/
def autoDiagnosis : Diagnosis :=
  { category := ErrorCategory.SYNTAX
    severity := ErrorSeverity.LOW
    diagnostic := "Missing semicolon"
    canAutoFix := true
    confidence := 9/10
    suggestedActions := [] }

def autoDraft : FixDraft :=
  { description := "Add the missing semicolon"
    fixData := FixData.command ["fix"]
    reasoning := "parse error points at line 3"
    confidence := 85/100 }

/-- Everything handleError does on the auto-apply input. -/
def autoPathEffects : List DbEffect :=
  handleError (some autoDiagnosis) (some autoDraft) "err" "p1" "m1" "l1"

/-- A sandbox on which every command and write succeeds. -/
def noopSandbox : Sandbox :=
  { runCommand := fun _ => none
    writeFile := fun _ => none }

/-- A fix that has already been rejected, owned by user "u". -/
def processedFix : FixRecord :=
  { id := "f2"
    description := "old fix"
    fixData := FixData.command ["c"]
    reasoning := "r"
    confidence := 1/2
    status := ApprovalStatus.REJECTED
    reviewedBy := some "u"
    reviewedAt := some 5
    feedback := some "no"
    projectId := "p1"
    ownerUserId := "u"
    fragment := none }

def processedStore : Store := { fixes := [processedFix], messages := [] }

/-- A PENDING fix owned by user "u", with no fragment. -/
def raceFix : FixRecord :=
  { id := "f1"
    description := "bump dependency"
    fixData := FixData.command ["npm install"]
    reasoning := "r"
    confidence := 1/2
    status := ApprovalStatus.PENDING
    reviewedBy := none
    reviewedAt := none
    feedback := none
    projectId := "p1"
    ownerUserId := "u"
    fragment := none }

def raceStore : Store := { fixes := [raceFix], messages := [] }

/-- A sandbox on which every command and every write throws "boom". -/
def failSandbox : Sandbox :=
  { runCommand := fun _ => some "boom"
    writeFile := fun _ => some "boom" }

/-- A PENDING fix whose fragment points at sandbox "sb1.e2b.app". -/
def c7Fix : FixRecord :=
  { id := "f3"
    description := "restart dev server"
    fixData := FixData.command ["npm run dev"]
    reasoning := "r"
    confidence := 1/2
    status := ApprovalStatus.PENDING
    reviewedBy := none
    reviewedAt := none
    feedback := none
    projectId := "p1"
    ownerUserId := "u"
    fragment := some { sandboxUrl := "sb1.e2b.app" } }

def c7Store : Store := { fixes := [c7Fix], messages := [] }

/-- A PENDING fix whose parent message has no fragment at all. -/
def c10Fix : FixRecord :=
  { id := "f4"
    description := "tidy imports"
    fixData := FixData.command ["lint"]
    reasoning := "r"
    confidence := 1/2
    status := ApprovalStatus.PENDING
    reviewedBy := none
    reviewedAt := none
    feedback := none
    projectId := "p1"
    ownerUserId := "u"
    fragment := none }

def c10Store : Store := { fixes := [c10Fix], messages := [] }

/-! ## Lemmas about the fix executor -/

theorem runCmds_all_runs (sb : Sandbox) (cs : List String) :
    ∀ ev ∈ (runCmds sb cs).1, ev.isRun = true := by
  induction cs with
  | nil => intro ev h; simp [runCmds] at h
  | cons c cs ih =>
    intro ev h
    rw [runCmds] at h
    cases hc : sb.runCommand c with
    | some e =>
      rw [hc] at h
      simp only [List.mem_singleton] at h
      subst h; rfl
    | none =>
      rw [hc] at h
      simp only [List.mem_cons] at h
      rcases h with h | h
      · subst h; rfl
      · exact ih ev h

theorem writeFiles_all_writes (sb : Sandbox) (fs : List FileWrite) :
    ∀ ev ∈ (writeFiles sb fs).1, ev.isWrite = true := by
  induction fs with
  | nil => intro ev h; simp [writeFiles] at h
  | cons f fs ih =>
    intro ev h
    rw [writeFiles] at h
    cases hf : sb.writeFile f with
    | some e =>
      rw [hf] at h
      simp only [List.mem_singleton] at h
      subst h; rfl
    | none =>
      rw [hf] at h
      simp only [List.mem_cons] at h
      rcases h with h | h
      · subst h; rfl
      · exact ih ev h

theorem runCmds_success (sb : Sandbox) (cs : List String)
    (h : ∀ c ∈ cs, sb.runCommand c = none) :
    runCmds sb cs = (cs.map SandboxEvent.ranCommand, none) := by
  induction cs with
  | nil => simp [runCmds]
  | cons c cs ih =>
    have hc : sb.runCommand c = none := h c (by simp)
    rw [runCmds, hc, ih (fun x hx => h x (by simp [hx]))]
    simp

theorem runCmds_failure (sb : Sandbox) (e : String) (good : List String)
    (bad : String) (rest : List String)
    (hgood : ∀ c ∈ good, sb.runCommand c = none)
    (hbad : sb.runCommand bad = some e) :
    runCmds sb (good ++ bad :: rest) =
      ((good ++ [bad]).map SandboxEvent.ranCommand, some e) := by
  induction good with
  | nil => simp [runCmds, hbad]
  | cons c cs ih =>
    have hc : sb.runCommand c = none := hgood c (by simp)
    rw [List.cons_append, runCmds, hc,
      ih (fun x hx => hgood x (by simp [hx]))]
    simp

/-- C6: for a multiStep payload with both commands and files, execution issues
all commands in listed order strictly before any file write (every trace splits
into command events followed by write events, and when every command succeeds
the trace is exactly the commands in order followed by the file writes); if a
command fails, the remaining commands are skipped, no file write is attempted,
and the executor returns a failure result instead of throwing. -/
theorem multiStep_commands_before_files_abort_on_failure
    (sb : Sandbox) (sid : String) (cs good rest : List String) (bad : String)
    (fs : List FileWrite) (e : String)
    (hsid : sid.isEmpty = false)
    (hsplit : cs = good ++ bad :: rest)
    (hgood : ∀ c ∈ good, sb.runCommand c = none)
    (hbad : sb.runCommand bad = some e) :
    (∀ (cs' : List String) (fs' : List FileWrite),
      ∃ cmdEvents fileEvents,
        (executeProposedFix sb (FixData.multiStep (some cs') (some fs')) (some sid)).2 =
          cmdEvents ++ fileEvents ∧
        (∀ ev ∈ cmdEvents, ev.isRun = true) ∧
        (∀ ev ∈ fileEvents, ev.isWrite = true)) ∧
    (∀ (cs' : List String) (fs' : List FileWrite),
      (∀ c ∈ cs', sb.runCommand c = none) →
      (executeProposedFix sb (FixData.multiStep (some cs') (some fs')) (some sid)).2 =
        cs'.map SandboxEvent.ranCommand ++ (writeFiles sb fs').1) ∧
    executeProposedFix sb (FixData.multiStep (some cs) (some fs)) (some sid) =
      ({ success := false, error := some e },
        (good ++ [bad]).map SandboxEvent.ranCommand) := by
  refine ⟨?_, ?_, ?_⟩
  · intro cs' fs'
    simp only [executeProposedFix, strTruthy, hsid, Bool.not_false, Bool.not_true,
      Bool.false_eq_true, if_false]
    rcases h1 : runCmds sb cs' with ⟨cevs, oe⟩
    cases oe with
    | some e' =>
      refine ⟨cevs, [], by simp, ?_, by simp⟩
      intro ev hev
      exact runCmds_all_runs sb cs' ev (by rw [h1]; exact hev)
    | none =>
      rcases h2 : writeFiles sb fs' with ⟨fevs, oe2⟩
      cases oe2 with
      | some e' =>
        refine ⟨cevs, fevs, by simp, ?_, ?_⟩
        · intro ev hev
          exact runCmds_all_runs sb cs' ev (by rw [h1]; exact hev)
        · intro ev hev
          exact writeFiles_all_writes sb fs' ev (by rw [h2]; exact hev)
      | none =>
        refine ⟨cevs, fevs, by simp, ?_, ?_⟩
        · intro ev hev
          exact runCmds_all_runs sb cs' ev (by rw [h1]; exact hev)
        · intro ev hev
          exact writeFiles_all_writes sb fs' ev (by rw [h2]; exact hev)
  · intro cs' fs' hok
    simp only [executeProposedFix, strTruthy, hsid, Bool.not_false, Bool.not_true,
      Bool.false_eq_true, if_false]
    rw [runCmds_success sb cs' hok]
    rcases h2 : writeFiles sb fs' with ⟨fevs, oe2⟩
    cases oe2 <;> simp
  · subst hsplit
    simp only [executeProposedFix, strTruthy, hsid, Bool.not_false, Bool.not_true,
      Bool.false_eq_true, if_false]
    rw [runCmds_failure sb e good bad rest hgood hbad]

/-- C6 witness: the theorem applied at the concrete payload
multiStep ["a","b","c"] [⟨"p","x"⟩] with sandbox id "sb1". -/
theorem multiStep_commands_before_files_abort_on_failure_witness :
    (∀ (cs' : List String) (fs' : List FileWrite),
      ∃ cmdEvents fileEvents,
        (executeProposedFix c6Sandbox (FixData.multiStep (some cs') (some fs')) (some "sb1")).2 =
          cmdEvents ++ fileEvents ∧
        (∀ ev ∈ cmdEvents, ev.isRun = true) ∧
        (∀ ev ∈ fileEvents, ev.isWrite = true)) ∧
    (∀ (cs' : List String) (fs' : List FileWrite),
      (∀ c ∈ cs', c6Sandbox.runCommand c = none) →
      (executeProposedFix c6Sandbox (FixData.multiStep (some cs') (some fs')) (some "sb1")).2 =
        cs'.map SandboxEvent.ranCommand ++ (writeFiles c6Sandbox fs').1) ∧
    executeProposedFix c6Sandbox
        (FixData.multiStep (some ["a", "b", "c"]) (some [{ path := "p", content := "x" }]))
        (some "sb1") =
      ({ success := false, error := some "boom" },
        (["a"] ++ ["b"]).map SandboxEvent.ranCommand) :=
  multiStep_commands_before_files_abort_on_failure c6Sandbox "sb1"
    ["a", "b", "c"] ["a"] ["c"] "b" [{ path := "p", content := "x" }] "boom"
    (by decide) (by decide) (by decide) (by decide)

/-! ## The policy rules of handleError -/

/-- C2: a ProposedFix row created by handleError for a generated draft has
status AUTO_FIXED exactly when the diagnosis severity is LOW and the draft's
own confidence is strictly greater than 0.8; in every other case its status
is PENDING. -/
theorem proposedFix_status_policy
    (diagBackend : Option Diagnosis) (draft : FixDraft)
    (errorString projectId errorMessageId errorLogId : String) (p : ProposedFixRow)
    (hp : DbEffect.createdProposedFix p ∈
      handleError diagBackend (some draft) errorString projectId errorMessageId errorLogId) :
    (p.status = ApprovalStatus.AUTO_FIXED ↔
      (analyzeError diagBackend).severity = ErrorSeverity.LOW ∧ draft.confidence > 8/10) ∧
    (p.status ≠ ApprovalStatus.AUTO_FIXED → p.status = ApprovalStatus.PENDING) := by
  by_cases hguard : (analyzeError diagBackend).canAutoFix = true ∧
      (analyzeError diagBackend).confidence > 7/10
  · by_cases hauto : (analyzeError diagBackend).severity = ErrorSeverity.LOW ∧
        draft.confidence > 8/10
    · simp [handleError, hguard.1, hguard.2, hauto] at hp
      subst hp
      simp [hauto]
    · simp [handleError, hguard.1, hguard.2, hauto] at hp
      subst hp
      simp [hauto]
  · simp [handleError, hguard] at hp

/-- C4: when the diagnosis says canAutoFix is false or its confidence is at
most 0.7, handleError neither invokes fix generation nor creates any
ProposedFix row. -/
theorem no_fix_generation_for_unfixable
    (diagBackend : Option Diagnosis) (fixGenBackend : Option FixDraft)
    (errorString projectId errorMessageId errorLogId : String)
    (h : (analyzeError diagBackend).canAutoFix = false ∨
         (analyzeError diagBackend).confidence ≤ 7/10) :
    DbEffect.invokedGenerateFix ∉
      handleError diagBackend fixGenBackend errorString projectId errorMessageId errorLogId ∧
    ∀ p, DbEffect.createdProposedFix p ∉
      handleError diagBackend fixGenBackend errorString projectId errorMessageId errorLogId := by
  have hguard : ¬((analyzeError diagBackend).canAutoFix = true ∧
      (analyzeError diagBackend).confidence > 7/10) := by
    rcases h with h | h
    · rintro ⟨h1, -⟩
      rw [h] at h1
      exact Bool.false_ne_true h1
    · rintro ⟨-, h2⟩
      exact absurd h2 (not_lt.mpr h)
  refine ⟨?_, ?_⟩
  · simp [handleError, hguard]
  · intro p
    simp [handleError, hguard]

/-- C4 witness: the failed-diagnosis fallback has canAutoFix = false, so even
with a draft available no generation call and no ProposedFix happens. -/
theorem no_fix_generation_for_unfixable_witness :
    DbEffect.invokedGenerateFix ∉
      handleError none
        (some { description := "d", fixData := FixData.command ["c"],
                reasoning := "r", confidence := 1 }) "e" "p" "m" "l" ∧
    ∀ q, DbEffect.createdProposedFix q ∉
      handleError none
        (some { description := "d", fixData := FixData.command ["c"],
                reasoning := "r", confidence := 1 }) "e" "p" "m" "l" :=
  no_fix_generation_for_unfixable none
    (some { description := "d", fixData := FixData.command ["c"],
            reasoning := "r", confidence := 1 }) "e" "p" "m" "l" (Or.inl rfl)

/-- C8: when the diagnosis backend throws or returns unparseable output,
analyzeError returns the fixed fallback (INFRASTRUCTURE / HIGH /
"Failed to analyze error" / canAutoFix false / confidence 0), and handleError
still creates the error log populated with that category and severity. -/
theorem diagnosis_failure_fallback_populates_error_log :
    analyzeError none = fallbackDiagnosis ∧
    fallbackDiagnosis =
      { category := ErrorCategory.INFRASTRUCTURE
        severity := ErrorSeverity.HIGH
        diagnostic := "Failed to analyze error"
        canAutoFix := false
        confidence := 0
        suggestedActions := ["Manual review required"] } ∧
    ∀ (fixGenBackend : Option FixDraft)
      (errorString projectId errorMessageId errorLogId : String),
      DbEffect.createdErrorLog
        { id := errorLogId
          messageId := errorMessageId
          category := ErrorCategory.INFRASTRUCTURE
          severity := ErrorSeverity.HIGH
          diagnostic := "Failed to analyze error" } ∈
        handleError none fixGenBackend errorString projectId errorMessageId errorLogId := by
  refine ⟨rfl, rfl, ?_⟩
  intro fixGenBackend errorString projectId errorMessageId errorLogId
  simp [handleError, analyzeError, fallbackDiagnosis]

/-- C9: whenever handleError creates a ProposedFix with status PENDING, it
also creates an APPROVAL_REQUEST message whose content is the structured
payload referencing the error log id and snapshotting the fix's description,
reasoning and confidence. -/
theorem pending_fix_creates_approval_request
    (diagBackend : Option Diagnosis) (draft : FixDraft)
    (errorString projectId errorMessageId errorLogId : String) (p : ProposedFixRow)
    (hp : DbEffect.createdProposedFix p ∈
      handleError diagBackend (some draft) errorString projectId errorMessageId errorLogId)
    (hpend : p.status = ApprovalStatus.PENDING) :
    p.errorLogId = errorLogId ∧
    DbEffect.createdMessage
      { projectId := projectId
        content := MessageContent.jsonPayload
          { typeTag := "approval_request"
            errorLogId := p.errorLogId
            description := p.description
            reasoning := p.reasoning
            confidence := p.confidence }
        role := MessageRole.ASSISTANT
        type := MessageType.APPROVAL_REQUEST } ∈
      handleError diagBackend (some draft) errorString projectId errorMessageId errorLogId := by
  by_cases hguard : (analyzeError diagBackend).canAutoFix = true ∧
      (analyzeError diagBackend).confidence > 7/10
  · by_cases hauto : (analyzeError diagBackend).severity = ErrorSeverity.LOW ∧
        draft.confidence > 8/10
    · simp [handleError, hguard.1, hguard.2, hauto] at hp
      subst hp
      simp at hpend
    · simp [handleError, hguard.1, hguard.2, hauto] at hp
      subst hp
      refine ⟨rfl, ?_⟩
      simp [handleError, hguard.1, hguard.2, hauto]
  · simp [handleError, hguard] at hp

/-- C2 witness: at severity LOW and draft confidence 0.85 the created row is
AUTO_FIXED, matching the policy equivalence. -/
theorem proposedFix_status_policy_witness :
    (c2Row.status = ApprovalStatus.AUTO_FIXED ↔
      (analyzeError (some c2Diag)).severity = ErrorSeverity.LOW ∧ c2Draft.confidence > 8/10) ∧
    (c2Row.status ≠ ApprovalStatus.AUTO_FIXED → c2Row.status = ApprovalStatus.PENDING) :=
  proposedFix_status_policy (some c2Diag) c2Draft "e" "p" "m" "l" c2Row
    (by norm_num [handleError, analyzeError, c2Diag, c2Draft, c2Row])

/-- C9 witness: draft confidence 0.5 yields a PENDING row and the
APPROVAL_REQUEST message with the snapshot payload is among the effects. -/
theorem pending_fix_creates_approval_request_witness :
    c9Row.errorLogId = "l" ∧
    DbEffect.createdMessage
      { projectId := "p"
        content := MessageContent.jsonPayload
          { typeTag := "approval_request"
            errorLogId := c9Row.errorLogId
            description := c9Row.description
            reasoning := c9Row.reasoning
            confidence := c9Row.confidence }
        role := MessageRole.ASSISTANT
        type := MessageType.APPROVAL_REQUEST } ∈
      handleError (some c9Diag) (some c9Draft) "e" "p" "m" "l" :=
  pending_fix_creates_approval_request (some c9Diag) c9Draft "e" "p" "m" "l" c9Row
    (by norm_num [handleError, analyzeError, c9Diag, c9Draft, c9Row]) rfl

/-- C3: on the auto-apply path the code creates the AUTO_FIXED row but never
invokes the fix executor — the branch holds only a TODO comment and a
console.log (usage.tsx lines 199-202) — and, as the non-auto branch is
skipped, no APPROVAL_REQUEST message is created either. -/
theorem auto_fixed_path_never_invokes_executor :
    (∃ p, DbEffect.createdProposedFix p ∈ autoPathEffects ∧
      p.status = ApprovalStatus.AUTO_FIXED) ∧
    DbEffect.invokedFixExecutor ∉ autoPathEffects ∧
    (∀ m, DbEffect.createdMessage m ∈ autoPathEffects →
      m.type ≠ MessageType.APPROVAL_REQUEST) := by
  refine ⟨⟨{ errorLogId := "l1"
             description := "Add the missing semicolon"
             fixData := FixData.command ["fix"]
             reasoning := "parse error points at line 3"
             confidence := 85/100
             status := ApprovalStatus.AUTO_FIXED }, ?_, rfl⟩, ?_, ?_⟩
  · norm_num [autoPathEffects, handleError, analyzeError, autoDiagnosis, autoDraft]
  · norm_num [autoPathEffects, handleError, analyzeError, autoDiagnosis, autoDraft]
    refine ⟨by simp, by simp, by simp, by simp⟩
  · intro m hm
    norm_num [autoPathEffects, handleError, analyzeError, autoDiagnosis, autoDraft] at hm
    rcases hm with hm | hm
    · subst hm
      decide
    · simp at hm

/-! ## Lemmas about the approval store -/

theorem find?_eq_some_id (l : List FixRecord) (fid : String) (pf : FixRecord)
    (h : l.find? (fun f => f.id == fid) = some pf) : pf.id = fid := by
  have := List.find?_some h
  simpa using this

theorem find?_replaceFix (l : List FixRecord) (fid : String) (pf nf : FixRecord)
    (h : l.find? (fun f => f.id == fid) = some pf) (hid : nf.id = fid) :
    (replaceFix l fid nf).find? (fun f => f.id == fid) = some nf := by
  have hnf : (nf.id == fid) = true := by simp [hid]
  induction l with
  | nil => simp [List.find?] at h
  | cons a l ih =>
    simp only [replaceFix, List.map_cons]
    by_cases ha : (a.id == fid) = true
    · rw [if_pos ha]
      simp [List.find?, hnf]
    · rw [if_neg ha]
      simp only [List.find?, ha] at h ⊢
      exact ih h

theorem approveRead_ok (u fid : String) (s : Store) (pf : FixRecord)
    (hf : findFix s fid = some pf) (howner : pf.ownerUserId = u)
    (hpend : pf.status = ApprovalStatus.PENDING) :
    approveRead u fid s = Except.ok pf := by
  simp only [approveRead, hf]
  rw [if_neg (by simp [howner]), if_neg (by simp [hpend])]

theorem approveRead_already_processed (u fid : String) (s : Store) (pf : FixRecord)
    (hf : findFix s fid = some pf) (howner : pf.ownerUserId = u)
    (hstat : pf.status ≠ ApprovalStatus.PENDING) :
    approveRead u fid s =
      Except.error { code := TrpcErrorCode.BAD_REQUEST, message := "Fix already processed" } := by
  simp only [approveRead, hf]
  rw [if_neg (by simp [howner]), if_pos hstat]

theorem rejectRead_already_processed (u fid : String) (s : Store) (pf : FixRecord)
    (hf : findFix s fid = some pf) (howner : pf.ownerUserId = u)
    (hstat : pf.status ≠ ApprovalStatus.PENDING) :
    rejectRead u fid s =
      Except.error { code := TrpcErrorCode.BAD_REQUEST, message := "Fix already processed" } := by
  simp only [rejectRead, hf]
  rw [if_neg (by simp [howner]), if_pos hstat]

/-- C5 amended: approve or reject on a fix whose status is not PENDING fails
with a BAD_REQUEST "Fix already processed" error (the source raises
BAD_REQUEST, not CONFLICT) and performs no mutation: the store — fix rows
and conversation messages alike — is returned unchanged and no sandbox call
is made. -/
theorem already_processed_fails_without_mutation
    (sb : Sandbox) (now : Nat) (u fid : String) (fb : Option String) (fbr : String)
    (s : Store) (pf : FixRecord)
    (hf : findFix s fid = some pf) (hstat : pf.status ≠ ApprovalStatus.PENDING)
    (howner : pf.ownerUserId = u) (hfbr : fbr.isEmpty = false) :
    approveFix sb now u fid fb s =
      { result := Except.error
          { code := TrpcErrorCode.BAD_REQUEST, message := "Fix already processed" }
        store := s
        sandboxTrace := [] } ∧
    rejectFix now u fid fbr s =
      { result := Except.error
          { code := TrpcErrorCode.BAD_REQUEST, message := "Fix already processed" }
        store := s } := by
  constructor
  · simp only [approveFix, approveRead_already_processed u fid s pf hf howner hstat]
  · simp only [rejectFix, hfbr, Bool.false_eq_true, if_false,
      rejectRead_already_processed u fid s pf hf howner hstat]

/-- C5 counterexample: on an already-REJECTED fix both approve and reject
fail with code BAD_REQUEST — not the CONFLICT code the claim states. -/
theorem already_processed_error_code_is_bad_request_not_conflict :
    (approveFix noopSandbox 9 "u" "f2" none processedStore).result =
      Except.error { code := TrpcErrorCode.BAD_REQUEST, message := "Fix already processed" } ∧
    (rejectFix 9 "u" "f2" "why" processedStore).result =
      Except.error { code := TrpcErrorCode.BAD_REQUEST, message := "Fix already processed" } ∧
    TrpcErrorCode.BAD_REQUEST ≠ TrpcErrorCode.CONFLICT :=
  ⟨rfl, rfl, by decide⟩

/-- C5 witness: the amended theorem applied to the concrete rejected fix. -/
theorem already_processed_fails_without_mutation_witness :
    approveFix noopSandbox 9 "u" "f2" none processedStore =
      { result := Except.error
          { code := TrpcErrorCode.BAD_REQUEST, message := "Fix already processed" }
        store := processedStore
        sandboxTrace := [] } ∧
    rejectFix 9 "u" "f2" "why" processedStore =
      { result := Except.error
          { code := TrpcErrorCode.BAD_REQUEST, message := "Fix already processed" }
        store := processedStore } :=
  already_processed_fails_without_mutation noopSandbox 9 "u" "f2" none "why"
    processedStore processedFix rfl (by decide) rfl rfl

/-- On a snapshot whose fragment is absent, the write half of approveFix
skips execution, reports success, writes APPROVED with reviewer, timestamp
and defaulted feedback, and appends the success message. -/
theorem approveWrite_no_fragment (sb : Sandbox) (now : Nat) (u fid : String)
    (fb : Option String) (pf : FixRecord) (s : Store)
    (hfrag : pf.fragment = none) :
    approveWrite sb now u fid fb pf s =
      ({ success := true
         proposedFix :=
           { pf with
             status := ApprovalStatus.APPROVED
             reviewedBy := some u
             reviewedAt := some now
             feedback := some (jsOr fb "Fix applied successfully") }
         executionError := none },
       { fixes := replaceFix s.fixes fid
           { pf with
             status := ApprovalStatus.APPROVED
             reviewedBy := some u
             reviewedAt := some now
             feedback := some (jsOr fb "Fix applied successfully") }
         messages := s.messages ++
           [{ projectId := pf.projectId
              content := MessageContent.text ("✅ Fix applied: " ++ pf.description)
              role := MessageRole.ASSISTANT
              type := MessageType.RESULT }] },
       []) := by
  simp only [approveWrite, hfrag]
  rfl

/-- C1 amended: the status check and the status write of approveFix are two
separate store operations (findUnique then an update conditioned on the id
alone), not one atomic conditional update. When the two calls run serially
the loser does observe a "Fix already processed" failure — but with code
BAD_REQUEST, not CONFLICT — while the interleaving in which both calls pass
the PENDING check before either writes lets both calls succeed. -/
theorem pending_transition_is_check_then_act
    (sb : Sandbox) (now1 now2 : Nat) (u fid : String) (s : Store) (pf : FixRecord)
    (hf : findFix s fid = some pf) (hpend : pf.status = ApprovalStatus.PENDING)
    (howner : pf.ownerUserId = u) (hfrag : pf.fragment = none) :
    ((approveFix sb now1 u fid none s).result =
        Except.ok (approveWrite sb now1 u fid none pf s).1 ∧
      (approveWrite sb now1 u fid none pf s).1.success = true ∧
      (approveFix sb now2 u fid none (approveFix sb now1 u fid none s).store).result =
        Except.error { code := TrpcErrorCode.BAD_REQUEST, message := "Fix already processed" }) ∧
    (approveRead u fid s = Except.ok pf ∧
      (approveWrite sb now1 u fid none pf s).1.success = true ∧
      (approveWrite sb now2 u fid none pf
        (approveWrite sb now1 u fid none pf s).2.1).1.success = true) := by
  have hid : pf.id = fid := find?_eq_some_id s.fixes fid pf hf
  have hread : approveRead u fid s = Except.ok pf := approveRead_ok u fid s pf hf howner hpend
  have hw := approveWrite_no_fragment sb now1 u fid none pf s hfrag
  have hfix1 : approveFix sb now1 u fid none s =
      { result := Except.ok (approveWrite sb now1 u fid none pf s).1
        store := (approveWrite sb now1 u fid none pf s).2.1
        sandboxTrace := (approveWrite sb now1 u fid none pf s).2.2 } := by
    simp only [approveFix, hread]
  refine ⟨⟨by rw [hfix1], by rw [hw], ?_⟩, hread, by rw [hw], ?_⟩
  · -- the serial second call sees the APPROVED row and fails
    rw [hfix1]
    have hfind2 : findFix (approveWrite sb now1 u fid none pf s).2.1 fid =
        some ((approveWrite sb now1 u fid none pf s).1.proposedFix) := by
      rw [hw]
      exact find?_replaceFix s.fixes fid pf _ hf hid
    have hread2 : approveRead u fid (approveWrite sb now1 u fid none pf s).2.1 =
        Except.error { code := TrpcErrorCode.BAD_REQUEST, message := "Fix already processed" } := by
      apply approveRead_already_processed u fid _ _ hfind2
      · rw [hw]; exact howner
      · rw [hw]; simp
    simp only [approveFix, hread2]
  · -- the interleaved second write also reports success
    rw [approveWrite_no_fragment sb now2 u fid none pf _ hfrag]

/-- C1 counterexample: in the interleaving where both reviewers' status
checks read the same PENDING row before either status write happens, both
approve calls report success — neither observes a CONFLICT (or any) failure,
because the update is conditioned on the fix id alone. -/
theorem concurrent_approvals_both_succeed :
    approveRead "u" "f1" raceStore = Except.ok raceFix ∧
    (approveWrite noopSandbox 1 "u" "f1" none raceFix raceStore).1.success = true ∧
    (approveWrite noopSandbox 2 "u" "f1" none raceFix
      (approveWrite noopSandbox 1 "u" "f1" none raceFix raceStore).2.1).1.success = true :=
  ⟨rfl, rfl, rfl⟩

/-- C1 witness: the amended theorem at the concrete PENDING fix. -/
theorem pending_transition_is_check_then_act_witness :
    ((approveFix noopSandbox 1 "u" "f1" none raceStore).result =
        Except.ok (approveWrite noopSandbox 1 "u" "f1" none raceFix raceStore).1 ∧
      (approveWrite noopSandbox 1 "u" "f1" none raceFix raceStore).1.success = true ∧
      (approveFix noopSandbox 2 "u" "f1" none
          (approveFix noopSandbox 1 "u" "f1" none raceStore).store).result =
        Except.error { code := TrpcErrorCode.BAD_REQUEST, message := "Fix already processed" }) ∧
    (approveRead "u" "f1" raceStore = Except.ok raceFix ∧
      (approveWrite noopSandbox 1 "u" "f1" none raceFix raceStore).1.success = true ∧
      (approveWrite noopSandbox 2 "u" "f1" none raceFix
        (approveWrite noopSandbox 1 "u" "f1" none raceFix raceStore).2.1).1.success = true) :=
  pending_transition_is_check_then_act noopSandbox 1 2 "u" "f1" raceStore raceFix
    rfl rfl rfl rfl

/-- On a snapshot whose fragment has a truthy sandboxUrl and whose execution
fails, the write half of approveFix records status PENDING (not APPROVED),
reviewer, timestamp and the defaulted failure feedback, and appends the
failure message. -/
theorem approveWrite_execution_failed (sb : Sandbox) (now : Nat) (u fid : String)
    (fb : Option String) (pf : FixRecord) (s : Store) (fr : Fragment)
    (hfrag : pf.fragment = some fr) (hurl : fr.sandboxUrl.isEmpty = false)
    (hfail : (executeProposedFix sb pf.fixData
      (some (firstSplitComponent fr.sandboxUrl))).1.success = false) :
    approveWrite sb now u fid fb pf s =
      ({ success := false
         proposedFix :=
           { pf with
             status := ApprovalStatus.PENDING
             reviewedBy := some u
             reviewedAt := some now
             feedback := some (jsOr fb "Fix failed to apply") }
         executionError := (executeProposedFix sb pf.fixData
           (some (firstSplitComponent fr.sandboxUrl))).1.error },
       { fixes := replaceFix s.fixes fid
           { pf with
             status := ApprovalStatus.PENDING
             reviewedBy := some u
             reviewedAt := some now
             feedback := some (jsOr fb "Fix failed to apply") }
         messages := s.messages ++
           [{ projectId := pf.projectId
              content := MessageContent.text
                ("❌ Fix failed: " ++ pf.description ++ ". Error: " ++
                  (match (executeProposedFix sb pf.fixData
                      (some (firstSplitComponent fr.sandboxUrl))).1.error with
                   | some e => e
                   | none => "undefined"))
              role := MessageRole.ASSISTANT
              type := MessageType.RESULT }] },
       (executeProposedFix sb pf.fixData (some (firstSplitComponent fr.sandboxUrl))).2) := by
  simp only [approveWrite, hfrag, hurl, Bool.not_false, if_true, hfail,
    Bool.false_eq_true, if_false]
  rfl

/-- C7: when approve triggers fix execution and execution fails, the row is
written back with status PENDING (retryable, not APPROVED and not an error
state) together with reviewer identity, timestamp and feedback defaulted to
the synthesized failure message, and a conversation entry describing the
failure is appended. -/
theorem approve_execution_failure_leaves_pending
    (sb : Sandbox) (now : Nat) (u fid : String) (fb : Option String) (s : Store)
    (pf : FixRecord) (fr : Fragment)
    (hf : findFix s fid = some pf) (hpend : pf.status = ApprovalStatus.PENDING)
    (howner : pf.ownerUserId = u) (hfrag : pf.fragment = some fr)
    (hurl : fr.sandboxUrl.isEmpty = false)
    (hfail : (executeProposedFix sb pf.fixData
      (some (firstSplitComponent fr.sandboxUrl))).1.success = false) :
    (approveFix sb now u fid fb s).result =
      Except.ok
        { success := false
          proposedFix :=
            { pf with
              status := ApprovalStatus.PENDING
              reviewedBy := some u
              reviewedAt := some now
              feedback := some (jsOr fb "Fix failed to apply") }
          executionError := (executeProposedFix sb pf.fixData
            (some (firstSplitComponent fr.sandboxUrl))).1.error } ∧
    findFix (approveFix sb now u fid fb s).store fid =
      some { pf with
             status := ApprovalStatus.PENDING
             reviewedBy := some u
             reviewedAt := some now
             feedback := some (jsOr fb "Fix failed to apply") } ∧
    (approveFix sb now u fid fb s).store.messages = s.messages ++
      [{ projectId := pf.projectId
         content := MessageContent.text
           ("❌ Fix failed: " ++ pf.description ++ ". Error: " ++
             (match (executeProposedFix sb pf.fixData
                 (some (firstSplitComponent fr.sandboxUrl))).1.error with
              | some e => e
              | none => "undefined"))
         role := MessageRole.ASSISTANT
         type := MessageType.RESULT }] := by
  have hid : pf.id = fid := find?_eq_some_id s.fixes fid pf hf
  have hread : approveRead u fid s = Except.ok pf := approveRead_ok u fid s pf hf howner hpend
  have hw := approveWrite_execution_failed sb now u fid fb pf s fr hfrag hurl hfail
  have hfix : approveFix sb now u fid fb s =
      { result := Except.ok (approveWrite sb now u fid fb pf s).1
        store := (approveWrite sb now u fid fb pf s).2.1
        sandboxTrace := (approveWrite sb now u fid fb pf s).2.2 } := by
    simp only [approveFix, hread]
  refine ⟨?_, ?_, ?_⟩
  · rw [hfix, hw]
  · rw [hfix, hw]
    exact find?_replaceFix s.fixes fid pf _ hf hid
  · rw [hfix, hw]

/-- C7 witness: on the failing sandbox the approved fix stays PENDING with
the synthesized failure feedback and the failure message is appended. -/
theorem approve_execution_failure_leaves_pending_witness :
    (approveFix failSandbox 3 "u" "f3" none c7Store).result =
      Except.ok
        { success := false
          proposedFix :=
            { c7Fix with
              status := ApprovalStatus.PENDING
              reviewedBy := some "u"
              reviewedAt := some 3
              feedback := some (jsOr none "Fix failed to apply") }
          executionError := (executeProposedFix failSandbox c7Fix.fixData
            (some (firstSplitComponent
              ({ sandboxUrl := "sb1.e2b.app" } : Fragment).sandboxUrl))).1.error } ∧
    findFix (approveFix failSandbox 3 "u" "f3" none c7Store).store "f3" =
      some { c7Fix with
             status := ApprovalStatus.PENDING
             reviewedBy := some "u"
             reviewedAt := some 3
             feedback := some (jsOr none "Fix failed to apply") } ∧
    (approveFix failSandbox 3 "u" "f3" none c7Store).store.messages =
      c7Store.messages ++
      [{ projectId := c7Fix.projectId
         content := MessageContent.text
           ("❌ Fix failed: " ++ c7Fix.description ++ ". Error: " ++
             (match (executeProposedFix failSandbox c7Fix.fixData
                 (some (firstSplitComponent
                   ({ sandboxUrl := "sb1.e2b.app" } : Fragment).sandboxUrl))).1.error with
              | some e => e
              | none => "undefined"))
         role := MessageRole.ASSISTANT
         type := MessageType.RESULT }] :=
  approve_execution_failure_leaves_pending failSandbox 3 "u" "f3" none c7Store c7Fix
    { sandboxUrl := "sb1.e2b.app" } rfl rfl rfl rfl rfl rfl

/-- On a snapshot whose fragment exists but carries an empty (falsy)
sandboxUrl, the write half of approveFix behaves exactly as with no
fragment: no execution, success, APPROVED. -/
theorem approveWrite_empty_sandbox_url (sb : Sandbox) (now : Nat) (u fid : String)
    (fb : Option String) (pf : FixRecord) (s : Store) (fr : Fragment)
    (hfrag : pf.fragment = some fr) (hurl : fr.sandboxUrl = "") :
    approveWrite sb now u fid fb pf s =
      ({ success := true
         proposedFix :=
           { pf with
             status := ApprovalStatus.APPROVED
             reviewedBy := some u
             reviewedAt := some now
             feedback := some (jsOr fb "Fix applied successfully") }
         executionError := none },
       { fixes := replaceFix s.fixes fid
           { pf with
             status := ApprovalStatus.APPROVED
             reviewedBy := some u
             reviewedAt := some now
             feedback := some (jsOr fb "Fix applied successfully") }
         messages := s.messages ++
           [{ projectId := pf.projectId
              content := MessageContent.text ("✅ Fix applied: " ++ pf.description)
              role := MessageRole.ASSISTANT
              type := MessageType.RESULT }] },
       []) := by
  simp only [approveWrite, hfrag, hurl]
  rfl

/-- C10: when the fix's parent message has no fragment, or the fragment's
sandboxUrl is empty (falsy in JS), approve skips fix execution entirely (no
sandbox interaction happens), treats the call as successful, marks the fix
APPROVED with feedback defaulted to "Fix applied successfully", and appends
the success conversation entry — a missing sandbox reference is a silent
no-op success, not a precondition failure. -/
theorem approve_without_sandbox_url_is_noop_success
    (sb : Sandbox) (now : Nat) (u fid : String) (fb : Option String) (s : Store)
    (pf : FixRecord)
    (hf : findFix s fid = some pf) (hpend : pf.status = ApprovalStatus.PENDING)
    (howner : pf.ownerUserId = u)
    (hfrag : pf.fragment = none ∨ ∃ fr, pf.fragment = some fr ∧ fr.sandboxUrl = "") :
    (approveFix sb now u fid fb s).result =
      Except.ok
        { success := true
          proposedFix :=
            { pf with
              status := ApprovalStatus.APPROVED
              reviewedBy := some u
              reviewedAt := some now
              feedback := some (jsOr fb "Fix applied successfully") }
          executionError := none } ∧
    (approveFix sb now u fid fb s).sandboxTrace = [] ∧
    findFix (approveFix sb now u fid fb s).store fid =
      some { pf with
             status := ApprovalStatus.APPROVED
             reviewedBy := some u
             reviewedAt := some now
             feedback := some (jsOr fb "Fix applied successfully") } ∧
    (approveFix sb now u fid fb s).store.messages = s.messages ++
      [{ projectId := pf.projectId
         content := MessageContent.text ("✅ Fix applied: " ++ pf.description)
         role := MessageRole.ASSISTANT
         type := MessageType.RESULT }] := by
  have hid : pf.id = fid := find?_eq_some_id s.fixes fid pf hf
  have hread : approveRead u fid s = Except.ok pf := approveRead_ok u fid s pf hf howner hpend
  have hfix : approveFix sb now u fid fb s =
      { result := Except.ok (approveWrite sb now u fid fb pf s).1
        store := (approveWrite sb now u fid fb pf s).2.1
        sandboxTrace := (approveWrite sb now u fid fb pf s).2.2 } := by
    simp only [approveFix, hread]
  have hw : approveWrite sb now u fid fb pf s =
      ({ success := true
         proposedFix :=
           { pf with
             status := ApprovalStatus.APPROVED
             reviewedBy := some u
             reviewedAt := some now
             feedback := some (jsOr fb "Fix applied successfully") }
         executionError := none },
       { fixes := replaceFix s.fixes fid
           { pf with
             status := ApprovalStatus.APPROVED
             reviewedBy := some u
             reviewedAt := some now
             feedback := some (jsOr fb "Fix applied successfully") }
         messages := s.messages ++
           [{ projectId := pf.projectId
              content := MessageContent.text ("✅ Fix applied: " ++ pf.description)
              role := MessageRole.ASSISTANT
              type := MessageType.RESULT }] },
       []) := by
    rcases hfrag with hfr | ⟨fr, hfr, hurl⟩
    · exact approveWrite_no_fragment sb now u fid fb pf s hfr
    · exact approveWrite_empty_sandbox_url sb now u fid fb pf s fr hfr hurl
  refine ⟨?_, ?_, ?_, ?_⟩
  · rw [hfix, hw]
  · rw [hfix, hw]
  · rw [hfix, hw]
    exact find?_replaceFix s.fixes fid pf _ hf hid
  · rw [hfix, hw]

/-- C10 witness: the theorem at the concrete fragment-less fix. -/
theorem approve_without_sandbox_url_is_noop_success_witness :
    (approveFix failSandbox 4 "u" "f4" none c10Store).result =
      Except.ok
        { success := true
          proposedFix :=
            { c10Fix with
              status := ApprovalStatus.APPROVED
              reviewedBy := some "u"
              reviewedAt := some 4
              feedback := some (jsOr none "Fix applied successfully") }
          executionError := none } ∧
    (approveFix failSandbox 4 "u" "f4" none c10Store).sandboxTrace = [] ∧
    findFix (approveFix failSandbox 4 "u" "f4" none c10Store).store "f4" =
      some { c10Fix with
             status := ApprovalStatus.APPROVED
             reviewedBy := some "u"
             reviewedAt := some 4
             feedback := some (jsOr none "Fix applied successfully") } ∧
    (approveFix failSandbox 4 "u" "f4" none c10Store).store.messages =
      c10Store.messages ++
      [{ projectId := c10Fix.projectId
         content := MessageContent.text ("✅ Fix applied: " ++ c10Fix.description)
         role := MessageRole.ASSISTANT
         type := MessageType.RESULT }] :=
  approve_without_sandbox_url_is_noop_success failSandbox 4 "u" "f4" none c10Store c10Fix
    rfl rfl rfl (Or.inl rfl)
